import Mathlib

/-!
Verification of the SPY ETF vs NAV tracker (src/spy_nav_tracker.py).

Shallow embedding conventions:
- Timestamps are rationals counting seconds; `(a - b)` models
  `(a - b).total_seconds()` on datetimes.
- Prices and NAV values are rationals; the Python floats carry exact
  decimal literals in every property checked here, so ℚ is adequate.
- The two network downloads are modelled by their observable outcome: an
  `Option ℚ` argument holding the latest close when the download returns
  rows, and `none` when it is empty or raises. The Gaussian noise sample
  is an explicit ℚ argument.
- `st.error` calls are modelled by a Bool flag (`true` = a user-visible
  error message was emitted) returned next to the fetched value.
-/

namespace SpyNavTracker

/-- One row of the session dataframe `st.session_state.data`
(columns timestamp, spy_price, nav_value, difference). -/
structure Sample where
  timestamp : ℚ
  spy_price : ℚ
  nav_value : ℚ
  difference : ℚ
deriving Repr, DecidableEq

/-- The mutable session state: the rolling buffer `data` and the
`last_update` timestamp. -/
structure SessionState where
  data : List Sample
  last_update : ℚ
deriving Repr, DecidableEq

/-- `fetch_spy_price`: returns the latest close when the download has rows,
otherwise emits an error message and returns None.  First component is the
returned value, second is whether `st.error` ran. -/
def fetch_spy_price (spy_close : Option ℚ) : Option ℚ × Bool :=
  match spy_close with
  | some p => (some p, false)
  | none => (none, true)

/-- The fixed SPY-to-index divisor `nav_scaling_factor = 0.1` from
`calculate_approx_nav`. -/
def nav_scaling_factor : ℚ := 1 / 10

/-- `calculate_approx_nav`: on a non-empty download of the index,
returns `sp500_value * nav_scaling_factor * (1 + noise)`; on an empty or
failing download, emits an error and returns None. -/
def calculate_approx_nav (sp500_close : Option ℚ) (noise : ℚ) :
    Option ℚ × Bool :=
  match sp500_close with
  | some sp500_value => (some (sp500_value * nav_scaling_factor * (1 + noise)), false)
  | none => (none, true)

/-- `update_data`: the aggregation tick.  Returns the new session state and
the Bool the Python function returns (`true` = "updated").  Mirrors the
source line by line: the 0.9 s debounce gate, the two fetches, the
both-succeed check, building the new row with `difference = spy_price -
nav_value`, appending, trimming to the most recent 3600 rows with
`iloc[-3600:]`, and advancing `last_update` only on success. -/
def update_data (st : SessionState) (current_time : ℚ)
    (spy_close : Option ℚ) (sp500_close : Option ℚ) (noise : ℚ) :
    SessionState × Bool :=
  let time_diff := current_time - st.last_update
  if time_diff < 9 / 10 then
    (st, false)
  else
    match (fetch_spy_price spy_close).1, (calculate_approx_nav sp500_close noise).1 with
    | some spy_price, some nav_value =>
        let difference := spy_price - nav_value
        let new_data : Sample := ⟨current_time, spy_price, nav_value, difference⟩
        let appended := st.data ++ [new_data]
        let trimmed :=
          if appended.length > 3600 then appended.drop (appended.length - 3600)
          else appended
        (⟨trimmed, current_time⟩, true)
    | _, _ => (st, false)

/-- Stable insertion into a timestamp-descending list, helper for the
table sort. -/
def insert_time_desc (s : Sample) : List Sample → List Sample
  | [] => [s]
  | t :: rest =>
      if t.timestamp < s.timestamp then s :: t :: rest
      else t :: insert_time_desc s rest

/-- `sort_values('timestamp', ascending=False)` on the buffer. -/
def sort_values_time_desc : List Sample → List Sample
  | [] => []
  | s :: rest => insert_time_desc s (sort_values_time_desc rest)

/-- The displayed slice: buffer sorted newest first, then `head(15)`. -/
def table_rows (data : List Sample) : List Sample :=
  (sort_values_time_desc data).take 15

/-- `price_change_pct` column: `(cur - prev) / prev * 100`, the one-step
lag change percent. -/
def price_change_pct (cur prev : ℚ) : ℚ := (cur - prev) / prev * 100

/-- Left-pad a digit string to 4 characters with zeros. -/
def pad4 (s : String) : String :=
  String.mk (List.replicate (4 - s.length) '0') ++ s

/-- Python fixed-point formatting with 4 decimals, as in the f-string
\x7bx:.4f\x7d: rounds to 4 decimal places and prints a sign only for
negative values.  Modelled over ℚ (rounding ties, absent from every value
formatted here, follow Mathlib round). -/
def fmt_fixed4 (x : ℚ) : String :=
  let n : Int := round (x * 10000)
  let sgn := if n < 0 then "-" else ""
  sgn ++ toString (n.natAbs / 10000) ++ "." ++ pad4 (toString (n.natAbs % 10000))

/-- The rendered `Change %` cell of table row `i` (newest-first index):
the change percent versus row `i+1` of the same displayed slice, formatted
with the f-string \x7bx:.4f\x7d%, or the empty string when `shift(-1)`
yields NaN (last displayed row) or the row does not exist. -/
def price_change_pct_fmt (data : List Sample) (i : Nat) : String :=
  match (table_rows data)[i]?, (table_rows data)[i + 1]? with
  | some cur, some prev =>
      fmt_fixed4 (price_change_pct cur.spy_price prev.spy_price) ++ "%"
  | _, _ => ""

/-- Which parts of the page the main body renders, as decided by the two
guards `if not st.session_state.data.empty` (metrics, charts, caption,
raw-data expander; else the waiting placeholder) and
`if len(st.session_state.data) > 1` (the recent-history table). -/
structure RenderPlan where
  shows_metrics : Bool
  shows_charts : Bool
  shows_table : Bool
  shows_raw_view : Bool
  shows_waiting : Bool
deriving Repr, DecidableEq

/-- The render decision for a given buffer state. -/
def render_plan (data : List Sample) : RenderPlan :=
  if data.isEmpty then ⟨false, false, false, false, true⟩
  else ⟨true, true, decide (data.length > 1), true, false⟩

/-- Concrete two-row buffer used for the table-formatting claims: the newer
row has price 501.0, the older row price 500.0. -/
def demo_buffer : List Sample := [⟨1, 500, 499, 1⟩, ⟨2, 501, 500, 1⟩]

/-! ## Helper lemmas about update_data -/

/-- When the debounce gate rejects, `update_data` returns the state
unchanged with result False. -/
theorem update_data_gate_closed (st : SessionState) (now : ℚ)
    (a b : Option ℚ) (noise : ℚ) (hgate : now - st.last_update < 9 / 10) :
    update_data st now a b noise = (st, false) := by
  simp only [update_data, if_pos hgate]

/-- When the SPY price download fails, `update_data` returns the state
unchanged with result False. -/
theorem update_data_spy_fail (st : SessionState) (now : ℚ)
    (b : Option ℚ) (noise : ℚ) :
    update_data st now none b noise = (st, false) := by
  by_cases hgate : now - st.last_update < 9 / 10
  · simp only [update_data, if_pos hgate]
  · simp only [update_data, fetch_spy_price, if_neg hgate]

/-- When the index download fails, `update_data` returns the state
unchanged with result False. -/
theorem update_data_nav_fail (st : SessionState) (now : ℚ)
    (a : Option ℚ) (noise : ℚ) :
    update_data st now a none noise = (st, false) := by
  by_cases hgate : now - st.last_update < 9 / 10
  · simp only [update_data, if_pos hgate]
  · cases a <;> simp only [update_data, fetch_spy_price, calculate_approx_nav, if_neg hgate]

/-- When the gate admits the tick and both downloads succeed, `update_data`
appends the constructed row, keeps the most recent 3600 rows, advances
`last_update`, and returns True.  Trimming is stated as one drop from the
front of `data.length + 1 - 3600` entries (0 when within capacity). -/
theorem update_data_success (data : List Sample) (lu now p v noise : ℚ)
    (hgate : ¬ now - lu < 9 / 10) :
    update_data ⟨data, lu⟩ now (some p) (some v) noise =
      (⟨(data ++ [Sample.mk now p (v * nav_scaling_factor * (1 + noise))
            (p - v * nav_scaling_factor * (1 + noise))]).drop (data.length + 1 - 3600),
        now⟩, true) := by
  have hu : update_data ⟨data, lu⟩ now (some p) (some v) noise =
      (⟨if (data ++ [Sample.mk now p (v * nav_scaling_factor * (1 + noise))
            (p - v * nav_scaling_factor * (1 + noise))]).length > 3600
         then (data ++ [Sample.mk now p (v * nav_scaling_factor * (1 + noise))
            (p - v * nav_scaling_factor * (1 + noise))]).drop
           ((data ++ [Sample.mk now p (v * nav_scaling_factor * (1 + noise))
            (p - v * nav_scaling_factor * (1 + noise))]).length - 3600)
         else data ++ [Sample.mk now p (v * nav_scaling_factor * (1 + noise))
            (p - v * nav_scaling_factor * (1 + noise))],
        now⟩, true) := by
    simp only [update_data, fetch_spy_price, calculate_approx_nav, if_neg hgate]
  rw [hu]
  have hlen : (data ++ [Sample.mk now p (v * nav_scaling_factor * (1 + noise))
      (p - v * nav_scaling_factor * (1 + noise))]).length = data.length + 1 := by
    simp
  by_cases hc : (data ++ [Sample.mk now p (v * nav_scaling_factor * (1 + noise))
      (p - v * nav_scaling_factor * (1 + noise))]).length > 3600
  · rw [if_pos hc, hlen]
  · rw [if_neg hc]
    rw [hlen] at hc
    have h0 : data.length + 1 - 3600 = 0 := by omega
    rw [h0, List.drop_zero]

/-- Whatever the gate and fetch outcomes, the Bool result False forces the
returned state to be the input state. -/
theorem update_data_false_of_no_append (st st2 : SessionState) (now : ℚ)
    (a b : Option ℚ) (noise : ℚ)
    (h : update_data st now a b noise = (st2, false)) : st2 = st := by
  by_cases hgate : now - st.last_update < 9 / 10
  · rw [update_data_gate_closed st now a b noise hgate] at h
    exact (Prod.mk.injEq _ _ _ _ ▸ h).1.symm
  · cases a with
    | none =>
        rw [update_data_spy_fail st now b noise] at h
        exact (Prod.mk.injEq _ _ _ _ ▸ h).1.symm
    | some p =>
        cases b with
        | none =>
            rw [update_data_nav_fail st now (some p) noise] at h
            exact (Prod.mk.injEq _ _ _ _ ▸ h).1.symm
        | some v =>
            rw [show st = (⟨st.data, st.last_update⟩ : SessionState) from rfl,
              update_data_success st.data st.last_update now p v noise hgate] at h
            exact absurd (Prod.mk.injEq _ _ _ _ ▸ h).2 (by simp)

/-- Length of the trimmed buffer after a successful append. -/
theorem length_after_append_trim (data : List Sample) (s : Sample) :
    ((data ++ [s]).drop (data.length + 1 - 3600)).length
      = min (data.length + 1) 3600 := by
  rw [List.length_drop]
  simp only [List.length_append, List.length_singleton]
  omega

/-- The displayed slice of the demo buffer: the newer row first. -/
theorem table_rows_demo :
    table_rows demo_buffer = [⟨2, 501, 500, 1⟩, ⟨1, 500, 499, 1⟩] := by
  norm_num [table_rows, demo_buffer, sort_values_time_desc, insert_time_desc]

/-! ## Claim theorems -/

/-- Claim C1: after every aggregation step the rolling buffer holds at most
3600 rows; a step that appends evicts exactly enough of the oldest rows
from the front (one drop of length + 1 - 3600 entries, 0 when within
capacity) to restore the bound, for every prior buffer state. -/
theorem C1_rolling_buffer_bound (st st2 : SessionState) (updated : Bool)
    (now : ℚ) (spy sp500 : Option ℚ) (noise : ℚ)
    (h : update_data st now spy sp500 noise = (st2, updated)) :
    (st.data.length ≤ 3600 → st2.data.length ≤ 3600) ∧
    (updated = true → st2.data.length ≤ 3600 ∧
      ∃ s : Sample,
        st2.data = (st.data ++ [s]).drop (st.data.length + 1 - 3600)) := by
  cases updated with
  | false =>
      have hst := update_data_false_of_no_append st st2 now spy sp500 noise h
      subst hst
      exact ⟨fun hb => hb, fun hc => nomatch hc⟩
  | true =>
      by_cases hgate : now - st.last_update < 9 / 10
      · rw [update_data_gate_closed st now spy sp500 noise hgate] at h
        exact absurd (Prod.mk.injEq _ _ _ _ ▸ h).2 (by simp)
      · cases spy with
        | none =>
            rw [update_data_spy_fail st now sp500 noise] at h
            exact absurd (Prod.mk.injEq _ _ _ _ ▸ h).2 (by simp)
        | some p =>
            cases sp500 with
            | none =>
                rw [update_data_nav_fail st now (some p) noise] at h
                exact absurd (Prod.mk.injEq _ _ _ _ ▸ h).2 (by simp)
            | some v =>
                rw [show st = (⟨st.data, st.last_update⟩ : SessionState) from rfl,
                  update_data_success st.data st.last_update now p v noise hgate] at h
                have h1 := (Prod.mk.injEq _ _ _ _ ▸ h).1
                have hdata : st2.data
                    = (st.data ++ [Sample.mk now p (v * nav_scaling_factor * (1 + noise))
                        (p - v * nav_scaling_factor * (1 + noise))]).drop
                      (st.data.length + 1 - 3600) := by
                  rw [← h1]
                have hlen : st2.data.length = min (st.data.length + 1) 3600 := by
                  rw [hdata, length_after_append_trim]
                refine ⟨fun _ => ?_, fun _ => ⟨?_, ⟨_, hdata⟩⟩⟩ <;> omega


/-- Witness for C1: a concrete successful tick from the empty buffer. -/
theorem C1_rolling_buffer_bound_witness :
    ([Sample.mk 1 500 500 0] : List Sample).length ≤ 3600 ∧
    ∃ s : Sample, ([Sample.mk 1 500 500 0] : List Sample)
      = (([] : List Sample) ++ [s]).drop (([] : List Sample).length + 1 - 3600) := by
  have hu : update_data ⟨[], 0⟩ 1 (some 500) (some 5000) 0
      = (⟨[Sample.mk 1 500 500 0], 1⟩, true) := by
    norm_num [update_data, fetch_spy_price, calculate_approx_nav, nav_scaling_factor]
  exact (C1_rolling_buffer_bound ⟨[], 0⟩ ⟨[Sample.mk 1 500 500 0], 1⟩ true 1
    (some 500) (some 5000) 0 hu).2 rfl

/-- Claim C2: every row present in the buffer after a tick satisfies
difference = spy_price - nav_value; the appended row has its difference
derived at construction, so the invariant is preserved from any buffer
state already satisfying it. -/
theorem C2_difference_always_derived (st st2 : SessionState) (updated : Bool)
    (now : ℚ) (spy sp500 : Option ℚ) (noise : ℚ)
    (h : update_data st now spy sp500 noise = (st2, updated))
    (hinv : ∀ s ∈ st.data, s.difference = s.spy_price - s.nav_value) :
    ∀ s ∈ st2.data, s.difference = s.spy_price - s.nav_value := by
  cases updated with
  | false =>
      have hst := update_data_false_of_no_append st st2 now spy sp500 noise h
      subst hst
      exact hinv
  | true =>
      by_cases hgate : now - st.last_update < 9 / 10
      · rw [update_data_gate_closed st now spy sp500 noise hgate] at h
        exact absurd (Prod.mk.injEq _ _ _ _ ▸ h).2 (by simp)
      · cases spy with
        | none =>
            rw [update_data_spy_fail st now sp500 noise] at h
            exact absurd (Prod.mk.injEq _ _ _ _ ▸ h).2 (by simp)
        | some p =>
            cases sp500 with
            | none =>
                rw [update_data_nav_fail st now (some p) noise] at h
                exact absurd (Prod.mk.injEq _ _ _ _ ▸ h).2 (by simp)
            | some v =>
                rw [show st = (⟨st.data, st.last_update⟩ : SessionState) from rfl,
                  update_data_success st.data st.last_update now p v noise hgate] at h
                have h1 := (Prod.mk.injEq _ _ _ _ ▸ h).1
                intro s hs
                have hd2 : st2.data
                    = (st.data ++ [Sample.mk now p (v * nav_scaling_factor * (1 + noise))
                        (p - v * nav_scaling_factor * (1 + noise))]).drop
                      (st.data.length + 1 - 3600) := by
                  rw [← h1]
                rw [hd2] at hs
                have hdata := List.mem_of_mem_drop hs
                rcases List.mem_append.mp hdata with hmem | hmem
                · exact hinv s hmem
                · have hse : s = Sample.mk now p (v * nav_scaling_factor * (1 + noise))
                      (p - v * nav_scaling_factor * (1 + noise)) := by
                    simpa using hmem
                  subst hse
                  rfl

/-- Witness for C2: the invariant evaluated on the row appended by a
concrete successful tick from the empty buffer. -/
theorem C2_difference_always_derived_witness :
    (Sample.mk 1 500 500 0).difference
      = (Sample.mk 1 500 500 0).spy_price - (Sample.mk 1 500 500 0).nav_value := by
  have hu : update_data ⟨[], 0⟩ 1 (some 500) (some 5000) 0
      = (⟨[Sample.mk 1 500 500 0], 1⟩, true) := by
    norm_num [update_data, fetch_spy_price, calculate_approx_nav, nav_scaling_factor]
  exact C2_difference_always_derived ⟨[], 0⟩ ⟨[Sample.mk 1 500 500 0], 1⟩ true 1
    (some 500) (some 5000) 0 hu (fun s hs => nomatch hs)
    (Sample.mk 1 500 500 0) (by simp)

/-- Claim C3: with last_update = T, a tick at now = T + 1 whose two fetches
succeed appends exactly one new row (carrying timestamp now, the fetched
price, the approximated NAV, and the derived difference), trims FIFO to
3600, advances last_update to now, and returns True ("updated"). -/
theorem C3_tick_appends_one (data : List Sample) (T p v noise : ℚ) :
    ∃ s : Sample,
      s.timestamp = T + 1 ∧ s.spy_price = p ∧
      s.nav_value = v * nav_scaling_factor * (1 + noise) ∧
      s.difference = s.spy_price - s.nav_value ∧
      update_data ⟨data, T⟩ (T + 1) (some p) (some v) noise
        = (⟨(data ++ [s]).drop (data.length + 1 - 3600), T + 1⟩, true) ∧
      ((data ++ [s]).drop (data.length + 1 - 3600)).length
        = min (data.length + 1) 3600 := by
  have hgate : ¬ (T + 1 - T < 9 / 10) := by
    have h1 : T + 1 - T = (1 : ℚ) := by ring
    rw [h1]; norm_num
  exact ⟨Sample.mk (T + 1) p (v * nav_scaling_factor * (1 + noise))
      (p - v * nav_scaling_factor * (1 + noise)),
    rfl, rfl, rfl, rfl,
    update_data_success data T (T + 1) p v noise hgate,
    length_after_append_trim data _⟩

/-- Claim C4: with last_update = T, a tick at now = T + 0.5 is rejected by
the 0.9 s debounce gate: it returns False ("not updated") and leaves the
buffer and last_update unchanged, for every fetch outcome (the result does
not depend on the fetch arguments, reflecting that no fetch runs). -/
theorem C4_debounce_noop (data : List Sample) (T : ℚ)
    (spy sp500 : Option ℚ) (noise : ℚ) :
    update_data ⟨data, T⟩ (T + 1 / 2) spy sp500 noise = (⟨data, T⟩, false) := by
  refine update_data_gate_closed _ _ _ _ _ ?_
  show T + 1 / 2 - T < 9 / 10
  have h1 : T + 1 / 2 - T = (1 / 2 : ℚ) := by ring
  rw [h1]; norm_num

/-- Claim C5: when exactly one of the two upstream fetches fails (SPY
download empty or raising while the index succeeds, or the converse), the
tick appends nothing and returns False ("not updated"), leaving the state
untouched. -/
theorem C5_single_failure_no_append (st : SessionState) (now p v noise : ℚ) :
    update_data st now none (some v) noise = (st, false) ∧
    update_data st now (some p) none noise = (st, false) :=
  ⟨update_data_spy_fail st now (some v) noise,
   update_data_nav_fail st now (some p) noise⟩

/-- Claim C6: when the SPY price fetch fails, the tick records no partial
row and returns False, the fetch itself emits the user-visible error
message, and the single fetch outcome per tick in the model reflects that
no retry happens within the tick. -/
theorem C6_price_failure_skips_tick (st : SessionState) (now : ℚ)
    (sp500 : Option ℚ) (noise : ℚ) :
    update_data st now none sp500 noise = (st, false) ∧
    (fetch_spy_price none).2 = true :=
  ⟨update_data_spy_fail st now sp500 noise, rfl⟩

/-- Counterexample to C7 as stated: with previous displayed price 500.0 and
current price 501.0 the Change % cell renders as "0.2000%", not
"+0.2000%" — the .4f format emits no plus sign on positive values. -/
theorem C7_counterexample :
    price_change_pct_fmt demo_buffer 0 = "0.2000%" ∧
    price_change_pct_fmt demo_buffer 0 ≠ "+0.2000%" := by
  have hpf : price_change_pct_fmt demo_buffer 0 = "0.2000%" := by
    have hpct : price_change_pct (501 : ℚ) 500 = 1 / 5 := by
      norm_num [price_change_pct]
    have hr : round ((1 / 5 : ℚ) * 10000) = 2000 := by norm_num [round_eq]
    simp only [price_change_pct_fmt, table_rows_demo]
    simp only [List.getElem?_cons_zero, List.getElem?_cons_succ]
    simp only [hpct, hr, fmt_fixed4]
    decide
  exact ⟨hpf, by rw [hpf]; decide⟩

/-- Claim C7 (amended): the change percent is computed by a one-step lag
within the displayed slice, and for a row of price 501.0 whose immediately
older displayed row has price 500.0 it renders as "0.2000%" (sign omitted
for positive values). -/
theorem C7_change_pct_one_step_lag (data : List Sample) (i : Nat)
    (cur prev : Sample)
    (hc : (table_rows data)[i]? = some cur)
    (hp : (table_rows data)[i + 1]? = some prev)
    (hcur : cur.spy_price = 501) (hprev : prev.spy_price = 500) :
    price_change_pct_fmt data i = "0.2000%" := by
  simp only [price_change_pct_fmt, hc, hp]
  have hpct : price_change_pct cur.spy_price prev.spy_price = 1 / 5 := by
    rw [hcur, hprev]; norm_num [price_change_pct]
  have hr : round ((1 / 5 : ℚ) * 10000) = 2000 := by norm_num [round_eq]
  simp only [hpct, hr, fmt_fixed4]
  decide

/-- Witness for the amended C7 on the concrete demo buffer. -/
theorem C7_change_pct_one_step_lag_witness :
    price_change_pct_fmt demo_buffer 0 = "0.2000%" :=
  C7_change_pct_one_step_lag demo_buffer 0 ⟨2, 501, 500, 1⟩ ⟨1, 500, 499, 1⟩
    (by rw [table_rows_demo]; rfl) (by rw [table_rows_demo]; rfl) rfl rfl

/-- Claim C8: the NAV approximation returns index * nav_scaling_factor *
(1 + noise) with the factor fixed at 0.1; at index value 5000 with the
noise term 0 it is exactly 500. -/
theorem C8_nav_formula (v noise : ℚ) :
    nav_scaling_factor = 1 / 10 ∧
    (calculate_approx_nav (some v) noise).1
      = some (v * nav_scaling_factor * (1 + noise)) ∧
    (calculate_approx_nav (some 5000) 0).1 = some 500 := by
  refine ⟨rfl, rfl, ?_⟩
  norm_num [calculate_approx_nav, nav_scaling_factor]

/-- Claim C9: whenever a tick returns False — debounce rejection or a
failed fetch — the whole state, last_update included, is unchanged, so a
failed fetch does not reset the debounce window and a following tick at
least 0.9 s after the old last_update proceeds to a successful update. -/
theorem C9_failure_keeps_last_update (st st2 : SessionState) (now : ℚ)
    (spy sp500 : Option ℚ) (noise : ℚ)
    (h : update_data st now spy sp500 noise = (st2, false)) :
    st2 = st ∧
    ∀ now2 p v noise2 : ℚ, 9 / 10 ≤ now2 - st.last_update →
      (update_data st2 now2 (some p) (some v) noise2).2 = true := by
  have hst := update_data_false_of_no_append st st2 now spy sp500 noise h
  refine ⟨hst, ?_⟩
  intro now2 p v noise2 hge
  rw [hst]
  have hsucc := update_data_success st.data st.last_update now2 p v noise2
    (not_lt.mpr hge)
  exact congrArg Prod.snd hsucc

/-- Witness for C9: a debounce-rejected tick at now = 0 from last_update =
0, followed by an eligible successful tick at now = 1. -/
theorem C9_failure_keeps_last_update_witness :
    ((⟨[], 0⟩ : SessionState) = ⟨[], 0⟩) ∧
    (update_data ⟨[], 0⟩ 1 (some 500) (some 5000) 0).2 = true := by
  have h := C9_failure_keeps_last_update ⟨[], 0⟩ ⟨[], 0⟩ 0 (some 500) (some 5000) 0
    (update_data_gate_closed ⟨[], 0⟩ 0 (some 500) (some 5000) 0
      (by show (0 : ℚ) - 0 < 9 / 10; norm_num))
  exact ⟨h.1, h.2 1 500 5000 0 (by show (9 : ℚ) / 10 ≤ 1 - 0; norm_num)⟩

/-- Claim C10: the recent-history table renders exactly when the buffer has
at least 2 rows; with exactly one row the metrics, charts and raw-data view
render while the table is omitted. -/
theorem C10_table_needs_two_rows (data : List Sample) :
    ((render_plan data).shows_table = true ↔ 2 ≤ data.length) ∧
    (data.length = 1 →
      (render_plan data).shows_metrics = true ∧
      (render_plan data).shows_charts = true ∧
      (render_plan data).shows_raw_view = true ∧
      (render_plan data).shows_table = false) := by
  cases data with
  | nil => simp [render_plan]
  | cons a l =>
      constructor
      · simp only [render_plan, List.isEmpty_cons, Bool.false_eq_true,
          if_false, decide_eq_true_eq]
        constructor
        · intro hgt
          simpa [List.length_cons] using Nat.succ_le_of_lt hgt
        · intro hge
          simp only [List.length_cons] at hge ⊢
          omega
      · intro hlen
        simp only [List.length_cons] at hlen
        have hl : l = [] := List.eq_nil_of_length_eq_zero (by omega)
        subst hl
        simp [render_plan]

/-- Witness for C10: a one-row buffer renders metrics, charts and the raw
view but not the table. -/
theorem C10_table_needs_two_rows_witness :
    (render_plan [Sample.mk 1 500 499 1]).shows_metrics = true ∧
    (render_plan [Sample.mk 1 500 499 1]).shows_charts = true ∧
    (render_plan [Sample.mk 1 500 499 1]).shows_raw_view = true ∧
    (render_plan [Sample.mk 1 500 499 1]).shows_table = false :=
  (C10_table_needs_two_rows [Sample.mk 1 500 499 1]).2 rfl

end SpyNavTracker
